import Mathlib

/-!
# Configuration defaults of the Kinesis producer (`config.go`)

A shallow embedding of `Config`, `(*Config).defaults` and `falseOrPanic`.

* Go `int` and `time.Duration` are modelled by `Int`.  The assignment
  `c.AggregateBatchCount = maxAggregationCount` only type-checks where `int`
  has 64 bits, and `defaults` performs no arithmetic, only comparisons and
  assignments of constants, so no wrap-around can occur.
* `defaults` mutates its receiver and may panic half-way.  It is modelled by
  explicit state passing: the receiver is threaded through the statements and
  the result is an `Outcome`, which records whether the call returned or
  panicked (and with which value) together with the receiver as it stands when
  the call ends.
* `backoff.Backoff`, `*logrus.Logger` and `Putter` come from other packages and
  are type parameters `B`, `L`, `P`.  A nil logger pointer is `none`; the
  pointer returned by `logrus.New()` is the argument `newLogger`.
-/

namespace Producer

/-! ## Constants -/

/-- Go: `maxRecordSize = 1 << 20`. -/
def maxRecordSize : Int := 1 * 2 ^ 20

/-- Go: `maxRequestSize = 5 << 20`. -/
def maxRequestSize : Int := 5 * 2 ^ 20

/-- Go: `maxRecordsPerRequest = 500`. -/
def maxRecordsPerRequest : Int := 500

/-- Go: `maxAggregationSize = 51200`. -/
def maxAggregationSize : Int := 51200

/-- Go: `maxAggregationCount = 4294967295`. -/
def maxAggregationCount : Int := 4294967295

/-- Go: `time.Second`, a `time.Duration` counted in nanoseconds. -/
def timeSecond : Int := 1000000000

/-- Go: `defaultFlushInterval = time.Second`. -/
def defaultFlushInterval : Int := timeSecond

/-! ## Data model -/

/-- Go: `type Config struct`. -/
structure Config (B L P : Type) where
  StreamName : String
  FlushInterval : Int
  BatchCount : Int
  BatchSize : Int
  AggregateBatchCount : Int
  AggregateBatchSize : Int
  BacklogCount : Int
  Backoff : B
  Logger : Option L
  Client : P

/-- How a call on a pointer receiver of type `σ` ends: it returns, or it
panics with a string; either way the receiver is left in some state. -/
inductive Outcome (σ : Type) where
  | returned (recv : σ)
  | panicked (msg : String) (recv : σ)

/-! ## Operations -/

/-- Go: `func falseOrPanic(p bool, msg string)`; `error msg` is `panic(msg)`. -/
def falseOrPanic (p : Bool) (msg : String) : Except String Unit :=
  if p then .error msg else .ok ()

/-- Go: `func (c *Config) defaults()`.  Each `let c := if _ then { c with _ }
else c` is one guarded assignment to a field of the receiver; a panic in
`falseOrPanic` ends the call with the receiver as assigned so far. -/
def Config.defaults {B L P : Type} (newLogger : L) (c : Config B L P) :
    Outcome (Config B L P) :=
  let c := if c.Logger.isNone then { c with Logger := some newLogger } else c
  let c := if c.BatchCount == 0 then { c with BatchCount := maxRecordsPerRequest } else c
  match falseOrPanic (decide (c.BatchCount > maxRecordsPerRequest))
      "kinesis: BatchCount exceeds 500" with
  | .error msg => .panicked msg c
  | .ok _ =>
  let c := if c.BatchSize == 0 then { c with BatchSize := maxRequestSize } else c
  match falseOrPanic (decide (c.BatchSize > maxRequestSize))
      "kinesis: BatchSize exceeds 5MiB" with
  | .error msg => .panicked msg c
  | .ok _ =>
  let c := if c.BacklogCount == 0 then { c with BacklogCount := maxRecordsPerRequest } else c
  let c := if c.AggregateBatchCount == 0 then
    { c with AggregateBatchCount := maxAggregationCount } else c
  match falseOrPanic (decide (c.AggregateBatchCount > maxAggregationCount))
      "kinesis: AggregateBatchCount exceeds 4294967295" with
  | .error msg => .panicked msg c
  | .ok _ =>
  let c := if c.AggregateBatchSize == 0 then
    { c with AggregateBatchSize := maxAggregationSize } else c
  match falseOrPanic (decide (c.AggregateBatchSize > maxAggregationSize))
      "kinesis: AggregateBatchSize exceeds 50KB" with
  | .error msg => .panicked msg c
  | .ok _ =>
  let c := if c.FlushInterval == 0 then { c with FlushInterval := timeSecond } else c
  .returned c

/-! ## Observing a call -/

/-- The receiver when the call ends, by return or by panic. -/
def Outcome.recv {σ : Type} : Outcome σ → σ
  | .returned c => c
  | .panicked _ c => c

/-- The panic value, if the call panicked. -/
def Outcome.panicValue {σ : Type} : Outcome σ → Option String
  | .returned _ => none
  | .panicked msg _ => some msg

/-- The receiver after `c.defaults()` ends, by return or by panic. -/
def after {B L P : Type} (newLogger : L) (c : Config B L P) : Config B L P :=
  (Config.defaults newLogger c).recv

/-- The value `c.defaults()` panics with, if any. -/
def panicValue {B L P : Type} (newLogger : L) (c : Config B L P) : Option String :=
  (Config.defaults newLogger c).panicValue

/-- Whether the call ended in a panic. -/
def Outcome.didPanic {σ : Type} : Outcome σ → Bool
  | .returned _ => false
  | .panicked _ _ => true

/-- The call `c.defaults()` panics. -/
def Panics {B L P : Type} (newLogger : L) (c : Config B L P) : Prop :=
  (Config.defaults newLogger c).didPanic = true

/-- The call `c.defaults()` returns normally. -/
def Returns {B L P : Type} (newLogger : L) (c : Config B L P) : Prop :=
  (Config.defaults newLogger c).didPanic = false

instance {B L P : Type} (l : L) (c : Config B L P) : Decidable (Panics l c) :=
  inferInstanceAs (Decidable (_ = true))

instance {B L P : Type} (l : L) (c : Config B L P) : Decidable (Returns l c) :=
  inferInstanceAs (Decidable (_ = false))

/-- The all-zero `Config`, with unit collaborators. -/
def zeroConfig : Config Unit Unit Unit :=
  { StreamName := "", FlushInterval := 0, BatchCount := 0, BatchSize := 0,
    AggregateBatchCount := 0, AggregateBatchSize := 0, BacklogCount := 0,
    Backoff := (), Logger := none, Client := () }

/-! ## Concrete configurations -/

/-- A caller-supplied configuration within all limits, `BacklogCount` left unset. -/
def sampleConfig : Config Unit Nat Unit :=
  { StreamName := "events", FlushInterval := 250000000, BatchCount := 100,
    BatchSize := 1048576, AggregateBatchCount := 50, AggregateBatchSize := 4096,
    BacklogCount := 0, Backoff := (), Logger := none, Client := () }

/-- The all-zero configuration except for `BatchCount = 100`. -/
def batch100Config : Config Unit Nat Unit :=
  { StreamName := "", FlushInterval := 0, BatchCount := 100, BatchSize := 0,
    AggregateBatchCount := 0, AggregateBatchSize := 0, BacklogCount := 0,
    Backoff := (), Logger := none, Client := () }

/-- A configuration whose counts, sizes and interval are all negative. -/
def negativeConfig : Config Unit Nat Unit :=
  { StreamName := "events", FlushInterval := -1, BatchCount := -1, BatchSize := -1,
    AggregateBatchCount := -1, AggregateBatchSize := -1, BacklogCount := -1,
    Backoff := (), Logger := none, Client := () }

/-- A configuration asking for 100-byte requests and default aggregation. -/
def smallBatchConfig : Config Unit Nat Unit :=
  { StreamName := "events", FlushInterval := 0, BatchCount := 0, BatchSize := 100,
    AggregateBatchCount := 0, AggregateBatchSize := 0, BacklogCount := 0,
    Backoff := (), Logger := none, Client := () }

/-- A configuration with `BatchCount` unset and `BatchSize` above 5 MiB. -/
def oversizedConfig : Config Unit Nat Unit :=
  { StreamName := "events", FlushInterval := 7, BatchCount := 0, BatchSize := 5242881,
    AggregateBatchCount := 0, AggregateBatchSize := 0, BacklogCount := 0,
    Backoff := (), Logger := none, Client := () }

/-- A configuration that violates all four limits at once. -/
def allOverConfig : Config Unit Nat Unit :=
  { StreamName := "events", FlushInterval := 0, BatchCount := 501, BatchSize := 5242881,
    AggregateBatchCount := 4294967296, AggregateBatchSize := 51201, BacklogCount := 0,
    Backoff := (), Logger := none, Client := () }

/-! ## The outcome of `defaults`, path by path -/

/-- Path 1: the `BatchCount` check fails. -/
theorem defaults_path_batchCount {B L P : Type} (l : L) (c : Config B L P)
    (h1 : c.BatchCount > 500) :
    Config.defaults l c = .panicked "kinesis: BatchCount exceeds 500"
      { c with Logger := some (c.Logger.getD l) } := by
  obtain ⟨sn, fi, bc, bs, abc, abs, bl, bo, lg, cl⟩ := c
  have h0 : ¬ bc = 0 := by simp at h1; omega
  cases lg <;>
    simp [Config.defaults, falseOrPanic, maxRecordsPerRequest, h0] <;> simp_all

/-- Path 2: the `BatchCount` check passes and the `BatchSize` check fails. -/
theorem defaults_path_batchSize {B L P : Type} (l : L) (c : Config B L P)
    (h1 : ¬ c.BatchCount > 500) (h2 : c.BatchSize > 5242880) :
    Config.defaults l c = .panicked "kinesis: BatchSize exceeds 5MiB"
      { c with
        Logger := some (c.Logger.getD l)
        BatchCount := if c.BatchCount = 0 then 500 else c.BatchCount } := by
  obtain ⟨sn, fi, bc, bs, abc, abs, bl, bo, lg, cl⟩ := c
  have h0 : ¬ bs = 0 := by simp at h2; omega
  have k1 : ¬ (500 : Int) < bc := h1
  have k2 : (5242880 : Int) < bs := h2
  cases lg <;> by_cases z1 : bc = 0 <;>
    simp [Config.defaults, falseOrPanic, maxRecordsPerRequest, maxRequestSize, h0, z1, k1, k2]

/-- Path 3: the two batch checks pass and the `AggregateBatchCount` check fails. -/
theorem defaults_path_aggregateBatchCount {B L P : Type} (l : L) (c : Config B L P)
    (h1 : ¬ c.BatchCount > 500) (h2 : ¬ c.BatchSize > 5242880)
    (h3 : c.AggregateBatchCount > 4294967295) :
    Config.defaults l c = .panicked "kinesis: AggregateBatchCount exceeds 4294967295"
      { c with
        Logger := some (c.Logger.getD l)
        BatchCount := if c.BatchCount = 0 then 500 else c.BatchCount
        BatchSize := if c.BatchSize = 0 then 5242880 else c.BatchSize
        BacklogCount := if c.BacklogCount = 0 then 500 else c.BacklogCount } := by
  obtain ⟨sn, fi, bc, bs, abc, abs, bl, bo, lg, cl⟩ := c
  have h0 : ¬ abc = 0 := by simp at h3; omega
  have k1 : ¬ (500 : Int) < bc := h1
  have k2 : ¬ (5242880 : Int) < bs := h2
  have k3 : (4294967295 : Int) < abc := h3
  cases lg <;> by_cases z1 : bc = 0 <;> by_cases z2 : bs = 0 <;> by_cases z3 : bl = 0 <;>
    simp [Config.defaults, falseOrPanic, maxRecordsPerRequest, maxRequestSize,
      maxAggregationCount, h0, z1, z2, z3, k1, k2, k3]

/-- Path 4: the first three checks pass and the `AggregateBatchSize` check fails. -/
theorem defaults_path_aggregateBatchSize {B L P : Type} (l : L) (c : Config B L P)
    (h1 : ¬ c.BatchCount > 500) (h2 : ¬ c.BatchSize > 5242880)
    (h3 : ¬ c.AggregateBatchCount > 4294967295) (h4 : c.AggregateBatchSize > 51200) :
    Config.defaults l c = .panicked "kinesis: AggregateBatchSize exceeds 50KB"
      { c with
        Logger := some (c.Logger.getD l)
        BatchCount := if c.BatchCount = 0 then 500 else c.BatchCount
        BatchSize := if c.BatchSize = 0 then 5242880 else c.BatchSize
        BacklogCount := if c.BacklogCount = 0 then 500 else c.BacklogCount
        AggregateBatchCount :=
          if c.AggregateBatchCount = 0 then 4294967295 else c.AggregateBatchCount } := by
  obtain ⟨sn, fi, bc, bs, abc, abs, bl, bo, lg, cl⟩ := c
  have h0 : ¬ abs = 0 := by simp at h4; omega
  have k1 : ¬ (500 : Int) < bc := h1
  have k2 : ¬ (5242880 : Int) < bs := h2
  have k3 : ¬ (4294967295 : Int) < abc := h3
  have k4 : (51200 : Int) < abs := h4
  cases lg <;> by_cases z1 : bc = 0 <;> by_cases z2 : bs = 0 <;> by_cases z3 : bl = 0 <;>
    by_cases z4 : abc = 0 <;>
    simp [Config.defaults, falseOrPanic, maxRecordsPerRequest, maxRequestSize,
      maxAggregationCount, maxAggregationSize, h0, z1, z2, z3, z4, k1, k2, k3, k4]

/-- Path 5: all four checks pass and the call returns. -/
theorem defaults_path_return {B L P : Type} (l : L) (c : Config B L P)
    (h1 : ¬ c.BatchCount > 500) (h2 : ¬ c.BatchSize > 5242880)
    (h3 : ¬ c.AggregateBatchCount > 4294967295) (h4 : ¬ c.AggregateBatchSize > 51200) :
    Config.defaults l c = .returned
      { c with
        Logger := some (c.Logger.getD l)
        BatchCount := if c.BatchCount = 0 then 500 else c.BatchCount
        BatchSize := if c.BatchSize = 0 then 5242880 else c.BatchSize
        BacklogCount := if c.BacklogCount = 0 then 500 else c.BacklogCount
        AggregateBatchCount :=
          if c.AggregateBatchCount = 0 then 4294967295 else c.AggregateBatchCount
        AggregateBatchSize :=
          if c.AggregateBatchSize = 0 then 51200 else c.AggregateBatchSize
        FlushInterval := if c.FlushInterval = 0 then 1000000000 else c.FlushInterval } := by
  obtain ⟨sn, fi, bc, bs, abc, abs, bl, bo, lg, cl⟩ := c
  have k1 : ¬ (500 : Int) < bc := h1
  have k2 : ¬ (5242880 : Int) < bs := h2
  have k3 : ¬ (4294967295 : Int) < abc := h3
  have k4 : ¬ (51200 : Int) < abs := h4
  cases lg <;> by_cases z1 : bc = 0 <;> by_cases z2 : bs = 0 <;> by_cases z3 : bl = 0 <;>
    by_cases z4 : abc = 0 <;> by_cases z5 : abs = 0 <;> by_cases z6 : fi = 0 <;>
    simp [Config.defaults, falseOrPanic, maxRecordsPerRequest, maxRequestSize,
      maxAggregationCount, maxAggregationSize, timeSecond, z1, z2, z3, z4, z5, z6,
      k1, k2, k3, k4]

/-! ## Consequences shared by the properties below -/

/-- The call panics exactly when one of the four entry values is above its limit. -/
theorem didPanic_eq_true_iff {B L P : Type} (l : L) (c : Config B L P) :
    (Config.defaults l c).didPanic = true ↔
      (c.BatchCount > 500 ∨ c.BatchSize > 5242880 ∨
        c.AggregateBatchCount > 4294967295 ∨ c.AggregateBatchSize > 51200) := by
  by_cases h1 : c.BatchCount > 500
  · simp [defaults_path_batchCount l c h1, Outcome.didPanic, h1]
  by_cases h2 : c.BatchSize > 5242880
  · simp [defaults_path_batchSize l c h1 h2, Outcome.didPanic, h2]
  by_cases h3 : c.AggregateBatchCount > 4294967295
  · simp [defaults_path_aggregateBatchCount l c h1 h2 h3, Outcome.didPanic, h3]
  by_cases h4 : c.AggregateBatchSize > 51200
  · simp [defaults_path_aggregateBatchSize l c h1 h2 h3 h4, Outcome.didPanic, h4]
  · simp [defaults_path_return l c h1 h2 h3 h4, Outcome.didPanic, h1, h2, h3, h4]

/-- A call that returns had all four entry values within their limits. -/
theorem limits_of_returns {B L P : Type} {l : L} {c : Config B L P} (h : Returns l c) :
    ¬ c.BatchCount > 500 ∧ ¬ c.BatchSize > 5242880 ∧
      ¬ c.AggregateBatchCount > 4294967295 ∧ ¬ c.AggregateBatchSize > 51200 := by
  have hp : ¬ (Config.defaults l c).didPanic = true := by
    unfold Returns at h; simp [h]
  rw [didPanic_eq_true_iff] at hp
  tauto

/-- The receiver after a call that returns, field by field. -/
theorem after_of_returns {B L P : Type} {l : L} {c : Config B L P} (h : Returns l c) :
    after l c =
      { c with
        Logger := some (c.Logger.getD l)
        BatchCount := if c.BatchCount = 0 then 500 else c.BatchCount
        BatchSize := if c.BatchSize = 0 then 5242880 else c.BatchSize
        BacklogCount := if c.BacklogCount = 0 then 500 else c.BacklogCount
        AggregateBatchCount :=
          if c.AggregateBatchCount = 0 then 4294967295 else c.AggregateBatchCount
        AggregateBatchSize :=
          if c.AggregateBatchSize = 0 then 51200 else c.AggregateBatchSize
        FlushInterval := if c.FlushInterval = 0 then 1000000000 else c.FlushInterval } := by
  obtain ⟨h1, h2, h3, h4⟩ := limits_of_returns h
  rw [after, defaults_path_return l c h1 h2 h3 h4, Outcome.recv]

/-! ## Properties -/

/-- C1: `defaults` panics if and only if, on entry, `BatchCount > 500` or
`BatchSize > 5242880` or `AggregateBatchCount > 4294967295` or
`AggregateBatchSize > 51200`; in every other case it returns normally. -/
theorem defaults_panics_iff {B L P : Type} (l : L) (c : Config B L P) :
    (Panics l c ↔
      (c.BatchCount > 500 ∨ c.BatchSize > 5242880 ∨
        c.AggregateBatchCount > 4294967295 ∨ c.AggregateBatchSize > 51200)) ∧
    (Returns l c ↔
      ¬ (c.BatchCount > 500 ∨ c.BatchSize > 5242880 ∨
        c.AggregateBatchCount > 4294967295 ∨ c.AggregateBatchSize > 51200)) := by
  refine ⟨didPanic_eq_true_iff l c, ?_⟩
  rw [← didPanic_eq_true_iff l c]
  unfold Returns
  simp

/-- C2: when `defaults` returns normally, each field that was zero on entry
holds its documented default on return: `FlushInterval` 1 second (1000000000 ns),
`BatchCount` 500, `BatchSize` 5242880, `AggregateBatchCount` 4294967295,
`AggregateBatchSize` 51200; and a `Config` whose thresholds are all zero is
accepted and gets exactly these values. -/
theorem defaults_fills_zero_fields {B L P : Type} (l : L) (c : Config B L P) :
    (Returns l c →
      (c.FlushInterval = 0 → (after l c).FlushInterval = 1000000000) ∧
      (c.BatchCount = 0 → (after l c).BatchCount = 500) ∧
      (c.BatchSize = 0 → (after l c).BatchSize = 5242880) ∧
      (c.AggregateBatchCount = 0 → (after l c).AggregateBatchCount = 4294967295) ∧
      (c.AggregateBatchSize = 0 → (after l c).AggregateBatchSize = 51200)) ∧
    (c.FlushInterval = 0 ∧ c.BatchCount = 0 ∧ c.BatchSize = 0 ∧
        c.AggregateBatchCount = 0 ∧ c.AggregateBatchSize = 0 →
      Returns l c ∧
      (after l c).FlushInterval = 1000000000 ∧
      (after l c).BatchCount = 500 ∧
      (after l c).BatchSize = 5242880 ∧
      (after l c).AggregateBatchCount = 4294967295 ∧
      (after l c).AggregateBatchSize = 51200) := by
  have key : Returns l c →
      (c.FlushInterval = 0 → (after l c).FlushInterval = 1000000000) ∧
      (c.BatchCount = 0 → (after l c).BatchCount = 500) ∧
      (c.BatchSize = 0 → (after l c).BatchSize = 5242880) ∧
      (c.AggregateBatchCount = 0 → (after l c).AggregateBatchCount = 4294967295) ∧
      (c.AggregateBatchSize = 0 → (after l c).AggregateBatchSize = 51200) := by
    intro h
    rw [after_of_returns h]
    refine ⟨?_, ?_, ?_, ?_, ?_⟩ <;> intro hz <;> simp [hz]
  refine ⟨key, ?_⟩
  rintro ⟨z1, z2, z3, z4, z5⟩
  have hr : Returns l c := by
    have hp : ¬ (Config.defaults l c).didPanic = true := by
      rw [didPanic_eq_true_iff, z2, z3, z4, z5]; decide
    unfold Returns; simpa using hp
  obtain ⟨k1, k2, k3, k4, k5⟩ := key hr
  exact ⟨hr, k1 z1, k2 z2, k3 z3, k4 z4, k5 z5⟩

/-- C2 witness: the all-zero configuration. -/
theorem defaults_fills_zero_fields_witness :
    Returns () zeroConfig ∧
      (after () zeroConfig).FlushInterval = 1000000000 ∧
      (after () zeroConfig).BatchCount = 500 ∧
      (after () zeroConfig).BatchSize = 5242880 ∧
      (after () zeroConfig).AggregateBatchCount = 4294967295 ∧
      (after () zeroConfig).AggregateBatchSize = 51200 :=
  (defaults_fills_zero_fields () zeroConfig).2 ⟨rfl, rfl, rfl, rfl, rfl⟩

/-- C3: when `defaults` returns normally the thresholds respect the hard
limits: `BatchCount <= 500`, `BatchSize <= 5242880`, `AggregateBatchSize <= 51200`
and `AggregateBatchCount <= 4294967295`. -/
theorem defaults_respects_limits {B L P : Type} (l : L) (c : Config B L P)
    (h : Returns l c) :
    (after l c).BatchCount ≤ 500 ∧ (after l c).BatchSize ≤ 5242880 ∧
      (after l c).AggregateBatchSize ≤ 51200 ∧
      (after l c).AggregateBatchCount ≤ 4294967295 := by
  obtain ⟨h1, h2, h3, h4⟩ := limits_of_returns h
  rw [after_of_returns h]
  refine ⟨?_, ?_, ?_, ?_⟩ <;> simp only <;> split_ifs <;> omega

/-- C3 witness: a configuration within the limits. -/
theorem defaults_respects_limits_witness :
    Returns 7 sampleConfig ∧
      (after 7 sampleConfig).BatchCount ≤ 500 ∧ (after 7 sampleConfig).BatchSize ≤ 5242880 ∧
      (after 7 sampleConfig).AggregateBatchSize ≤ 51200 ∧
      (after 7 sampleConfig).AggregateBatchCount ≤ 4294967295 :=
  ⟨by decide, defaults_respects_limits 7 sampleConfig (by decide)⟩

/-- C4: `defaults` never rewrites a caller-supplied value: when it returns
normally, each of `FlushInterval`, `BatchCount`, `BatchSize`,
`AggregateBatchCount`, `AggregateBatchSize` and `BacklogCount` that was non-zero
on entry is unchanged, and `StreamName`, `Backoff` and `Client` are unchanged
whatever their entry values. -/
theorem defaults_keeps_supplied_values {B L P : Type} (l : L) (c : Config B L P)
    (h : Returns l c) :
    (c.FlushInterval ≠ 0 → (after l c).FlushInterval = c.FlushInterval) ∧
      (c.BatchCount ≠ 0 → (after l c).BatchCount = c.BatchCount) ∧
      (c.BatchSize ≠ 0 → (after l c).BatchSize = c.BatchSize) ∧
      (c.AggregateBatchCount ≠ 0 →
        (after l c).AggregateBatchCount = c.AggregateBatchCount) ∧
      (c.AggregateBatchSize ≠ 0 → (after l c).AggregateBatchSize = c.AggregateBatchSize) ∧
      (c.BacklogCount ≠ 0 → (after l c).BacklogCount = c.BacklogCount) ∧
      (after l c).StreamName = c.StreamName ∧
      (after l c).Backoff = c.Backoff ∧
      (after l c).Client = c.Client := by
  rw [after_of_returns h]
  refine ⟨?_, ?_, ?_, ?_, ?_, ?_, rfl, rfl, rfl⟩ <;> intro hz <;> simp [hz]

/-- C4 witness: a configuration with five caller-supplied thresholds. -/
theorem defaults_keeps_supplied_values_witness :
    Returns 7 sampleConfig ∧
      (after 7 sampleConfig).FlushInterval = 250000000 ∧
      (after 7 sampleConfig).BatchCount = 100 ∧
      (after 7 sampleConfig).BatchSize = 1048576 ∧
      (after 7 sampleConfig).AggregateBatchCount = 50 ∧
      (after 7 sampleConfig).AggregateBatchSize = 4096 ∧
      (after 7 sampleConfig).StreamName = "events" := by
  have h := defaults_keeps_supplied_values 7 sampleConfig (by decide)
  exact ⟨by decide, h.1 (by decide), h.2.1 (by decide), h.2.2.1 (by decide),
    h.2.2.2.1 (by decide), h.2.2.2.2.1 (by decide), h.2.2.2.2.2.2.1⟩

/-- C5, evaluated on the code: with `BatchCount = 100` and `BacklogCount = 0` on
entry, `defaults` returns with `BatchCount = 100` but `BacklogCount = 500`
(the constant `maxRecordsPerRequest`), not the value of `BatchCount`. -/
theorem backlogCount_default_is_maxRecordsPerRequest :
    batch100Config.BacklogCount = 0 ∧ Returns 7 batch100Config ∧
      (after 7 batch100Config).BatchCount = 100 ∧
      (after 7 batch100Config).BacklogCount = 500 ∧
      (after 7 batch100Config).BacklogCount ≠ (after 7 batch100Config).BatchCount := by
  decide

/-- C6 as stated fails: the all-negative configuration is accepted and none of
its six thresholds is strictly positive on return. -/
theorem negative_thresholds_survive :
    Returns 7 negativeConfig ∧
      ¬ (0 < (after 7 negativeConfig).BatchCount) ∧
      ¬ (0 < (after 7 negativeConfig).BatchSize) ∧
      ¬ (0 < (after 7 negativeConfig).AggregateBatchCount) ∧
      ¬ (0 < (after 7 negativeConfig).AggregateBatchSize) ∧
      ¬ (0 < (after 7 negativeConfig).BacklogCount) ∧
      ¬ (0 < (after 7 negativeConfig).FlushInterval) := by
  decide

/-- C6 amended: when `defaults` returns normally, each of `BatchCount`,
`BatchSize`, `AggregateBatchCount`, `AggregateBatchSize`, `BacklogCount` and
`FlushInterval` is non-zero on return, and is strictly positive on return
whenever it was not negative on entry. -/
theorem defaults_thresholds_nonzero {B L P : Type} (l : L) (c : Config B L P)
    (h : Returns l c) :
    ((after l c).BatchCount ≠ 0 ∧ (0 ≤ c.BatchCount → 0 < (after l c).BatchCount)) ∧
    ((after l c).BatchSize ≠ 0 ∧ (0 ≤ c.BatchSize → 0 < (after l c).BatchSize)) ∧
    ((after l c).AggregateBatchCount ≠ 0 ∧
      (0 ≤ c.AggregateBatchCount → 0 < (after l c).AggregateBatchCount)) ∧
    ((after l c).AggregateBatchSize ≠ 0 ∧
      (0 ≤ c.AggregateBatchSize → 0 < (after l c).AggregateBatchSize)) ∧
    ((after l c).BacklogCount ≠ 0 ∧
      (0 ≤ c.BacklogCount → 0 < (after l c).BacklogCount)) ∧
    ((after l c).FlushInterval ≠ 0 ∧
      (0 ≤ c.FlushInterval → 0 < (after l c).FlushInterval)) := by
  rw [after_of_returns h]
  refine ⟨⟨?_, ?_⟩, ⟨?_, ?_⟩, ⟨?_, ?_⟩, ⟨?_, ?_⟩, ⟨?_, ?_⟩, ⟨?_, ?_⟩⟩ <;>
    simp only <;> split_ifs <;> omega

/-- C6 amended, witness: a configuration with non-negative thresholds. -/
theorem defaults_thresholds_nonzero_witness :
    Returns 7 sampleConfig ∧
      0 < (after 7 sampleConfig).BatchCount ∧
      0 < (after 7 sampleConfig).BatchSize ∧
      0 < (after 7 sampleConfig).AggregateBatchCount ∧
      0 < (after 7 sampleConfig).AggregateBatchSize ∧
      0 < (after 7 sampleConfig).BacklogCount ∧
      0 < (after 7 sampleConfig).FlushInterval := by
  have h := defaults_thresholds_nonzero 7 sampleConfig (by decide)
  exact ⟨by decide, h.1.2 (by decide), h.2.1.2 (by decide), h.2.2.1.2 (by decide),
    h.2.2.2.1.2 (by decide), h.2.2.2.2.1.2 (by decide), h.2.2.2.2.2.2 (by decide)⟩

/-- C7 as stated fails: with `BatchSize = 100` and `AggregateBatchSize` unset,
`defaults` returns with `AggregateBatchSize = 51200 > 100 = BatchSize`. -/
theorem aggregateBatchSize_may_exceed_batchSize :
    Returns 7 smallBatchConfig ∧
      (after 7 smallBatchConfig).BatchSize = 100 ∧
      (after 7 smallBatchConfig).AggregateBatchSize = 51200 ∧
      ¬ ((after 7 smallBatchConfig).AggregateBatchSize ≤
          (after 7 smallBatchConfig).BatchSize) := by
  decide

/-- C7 amended: the aggregation ceiling is tighter than the batch ceiling: when
`defaults` returns normally, `AggregateBatchSize <= 51200 <= 5242880` on return,
and `AggregateBatchSize <= BatchSize` on return whenever `BatchSize` on return is
at least 51200, in particular whenever `BatchSize` was zero on entry. -/
theorem defaults_aggregate_ceiling_tighter {B L P : Type} (l : L) (c : Config B L P)
    (h : Returns l c) :
    (after l c).AggregateBatchSize ≤ maxAggregationSize ∧
      maxAggregationSize ≤ maxRequestSize ∧
      (maxAggregationSize ≤ (after l c).BatchSize →
        (after l c).AggregateBatchSize ≤ (after l c).BatchSize) ∧
      (c.BatchSize = 0 → (after l c).AggregateBatchSize ≤ (after l c).BatchSize) := by
  obtain ⟨h1, h2, h3, h4⟩ := limits_of_returns h
  rw [after_of_returns h]
  simp only [maxAggregationSize, maxRequestSize]
  refine ⟨?_, by decide, ?_, ?_⟩
  · split_ifs <;> omega
  · intro hb; split_ifs at hb ⊢ <;> omega
  · intro hz; simp only [hz]; split_ifs <;> omega

/-- C7 amended, witness: the all-zero configuration. -/
theorem defaults_aggregate_ceiling_tighter_witness :
    Returns () zeroConfig ∧
      (after () zeroConfig).AggregateBatchSize ≤ (after () zeroConfig).BatchSize :=
  ⟨by decide, (defaults_aggregate_ceiling_tighter () zeroConfig (by decide)).2.2.2 rfl⟩

/-- C8: `defaults` is idempotent: when `defaults` returns normally, the logger
is non-nil afterwards and a second call on the result (whatever logger it would
allocate) also returns normally and leaves every field unchanged. -/
theorem defaults_idempotent {B L P : Type} (l l2 : L) (c : Config B L P)
    (h : Returns l c) :
    (after l c).Logger ≠ none ∧
      Config.defaults l2 (after l c) = Outcome.returned (after l c) := by
  obtain ⟨h1, h2, h3, h4⟩ := limits_of_returns h
  rw [after_of_returns h]
  obtain ⟨sn, fi, bc, bs, abc, abs, bl, bo, lg, cl⟩ := c
  simp only at h1 h2 h3 h4
  refine ⟨by simp, ?_⟩
  rw [defaults_path_return l2 _ (by simp only; split_ifs <;> omega)
    (by simp only; split_ifs <;> omega) (by simp only; split_ifs <;> omega)
    (by simp only; split_ifs <;> omega)]
  simp only [Option.getD_some, Outcome.returned.injEq, Config.mk.injEq, true_and, and_true]
  refine ⟨?_, ?_, ?_, ?_, ?_, ?_⟩ <;> split_ifs <;> rfl

/-- C8 witness: a second call on the result of the first, with another logger. -/
theorem defaults_idempotent_witness :
    Returns 7 sampleConfig ∧ (after 7 sampleConfig).Logger ≠ none ∧
      Config.defaults 9 (after 7 sampleConfig) = Outcome.returned (after 7 sampleConfig) :=
  ⟨by decide, defaults_idempotent 7 9 sampleConfig (by decide)⟩

/-- C9: `defaults` is not atomic on failure: for every `Config` with
`BatchCount = 0` and `BatchSize > 5242880` on entry, `defaults` panics, and at
the panic `BatchCount` has already been overwritten with 500 while `BatchSize`,
`BacklogCount`, `AggregateBatchCount`, `AggregateBatchSize` and `FlushInterval`
still hold their entry values. -/
theorem defaults_not_atomic_on_panic {B L P : Type} (l : L) (c : Config B L P)
    (hcount : c.BatchCount = 0) (hsize : c.BatchSize > 5242880) :
    Panics l c ∧
      (after l c).BatchCount = 500 ∧
      (after l c).BatchSize = c.BatchSize ∧
      (after l c).BacklogCount = c.BacklogCount ∧
      (after l c).AggregateBatchCount = c.AggregateBatchCount ∧
      (after l c).AggregateBatchSize = c.AggregateBatchSize ∧
      (after l c).FlushInterval = c.FlushInterval := by
  have h1 : ¬ c.BatchCount > 500 := by rw [hcount]; decide
  unfold Panics after
  rw [defaults_path_batchSize l c h1 hsize]
  simp [Outcome.didPanic, Outcome.recv, hcount]

/-- C9 witness: `BatchCount` unset, `BatchSize` one byte above 5 MiB. -/
theorem defaults_not_atomic_on_panic_witness :
    Panics 7 oversizedConfig ∧
      (after 7 oversizedConfig).BatchCount = 500 ∧
      (after 7 oversizedConfig).BatchSize = oversizedConfig.BatchSize ∧
      (after 7 oversizedConfig).BacklogCount = oversizedConfig.BacklogCount ∧
      (after 7 oversizedConfig).AggregateBatchCount = oversizedConfig.AggregateBatchCount ∧
      (after 7 oversizedConfig).AggregateBatchSize = oversizedConfig.AggregateBatchSize ∧
      (after 7 oversizedConfig).FlushInterval = oversizedConfig.FlushInterval :=
  defaults_not_atomic_on_panic 7 oversizedConfig rfl (by decide)

/-- C10: the panic value of `defaults` is the message of the first violated
limit in the order `BatchCount`, `BatchSize`, `AggregateBatchCount`,
`AggregateBatchSize` (and there is none when no limit is violated); in
particular with `BatchCount > 500` the message is
"kinesis: BatchCount exceeds 500" whatever the other fields are. -/
theorem defaults_panic_message {B L P : Type} (l : L) (c : Config B L P) :
    panicValue l c =
      (if c.BatchCount > 500 then some "kinesis: BatchCount exceeds 500"
       else if c.BatchSize > 5242880 then some "kinesis: BatchSize exceeds 5MiB"
       else if c.AggregateBatchCount > 4294967295 then
         some "kinesis: AggregateBatchCount exceeds 4294967295"
       else if c.AggregateBatchSize > 51200 then
         some "kinesis: AggregateBatchSize exceeds 50KB"
       else none) ∧
    (c.BatchCount > 500 → panicValue l c = some "kinesis: BatchCount exceeds 500") := by
  unfold panicValue
  by_cases h1 : c.BatchCount > 500
  · simp [defaults_path_batchCount l c h1, Outcome.panicValue, h1]
  by_cases h2 : c.BatchSize > 5242880
  · simp [defaults_path_batchSize l c h1 h2, Outcome.panicValue, h1, h2]
  by_cases h3 : c.AggregateBatchCount > 4294967295
  · simp [defaults_path_aggregateBatchCount l c h1 h2 h3, Outcome.panicValue, h1, h2, h3]
  by_cases h4 : c.AggregateBatchSize > 51200
  · simp [defaults_path_aggregateBatchSize l c h1 h2 h3 h4, Outcome.panicValue, h1, h2, h3, h4]
  · simp [defaults_path_return l c h1 h2 h3 h4, Outcome.panicValue, h1, h2, h3, h4]

/-- C10 witness: a configuration over all four limits reports `BatchCount`. -/
theorem defaults_panic_message_witness :
    allOverConfig.BatchSize > 5242880 ∧ allOverConfig.AggregateBatchCount > 4294967295 ∧
      allOverConfig.AggregateBatchSize > 51200 ∧
      panicValue 7 allOverConfig = some "kinesis: BatchCount exceeds 500" :=
  ⟨by decide, by decide, by decide, (defaults_panic_message 7 allOverConfig).2 (by decide)⟩

end Producer
